import Mathlib

/-!
Shallow embedding of the interview MCP server (`src/mcp_server.py`) of the
`harshini-pulla/Ai` repository, together with theorems settling the frozen
claims about its specification.

Python dictionaries whose values are strings are modelled as records of
`Option String` fields (`none` = key absent).  Python truthiness of strings
and optional strings is modelled explicitly.  External collaborators
(the Gmail send, pdfminer, python-docx, UTF-8 decoding) are taken as
function parameters, since the repository delegates them to libraries.
-/

/-- Python truthiness test for an optional string:
`None` and the empty string are falsy. -/
def pyFalsy : Option String → Bool
  | none => true
  | some s => s == ""

/-- Python `x or default` for an optional string `x`
(used for `context.get("hr_email") or HR_EMAIL`). -/
def pyOr (x : Option String) (d : String) : String :=
  match x with
  | none => d
  | some s => if s == "" then d else s

/-- Python `s if s else default` for a string `s`. -/
def pyIfElse (s d : String) : String :=
  if s == "" then d else s

/-- Python `str(x)` for an optional string, as used in f-strings:
`None` prints as `"None"`. -/
def pyStrOpt : Option String → String
  | none => "None"
  | some s => s

/-- Python `s.lower()` (character-wise lowercasing). -/
def pyLower (s : String) : String :=
  ⟨s.data.map Char.toLower⟩

/-- Python `s.endswith(suffix)`. -/
def pyEndsWith (s suffix : String) : Bool :=
  suffix.data.isSuffixOf s.data

/-- Strip leading and trailing whitespace from a character list. -/
def stripChars (l : List Char) : List Char :=
  ((l.dropWhile Char.isWhitespace).reverse.dropWhile Char.isWhitespace).reverse

/-- Python `s.strip()`. -/
def pyStrip (s : String) : String :=
  ⟨stripChars s.data⟩

/-- One stored interview context: the dictionary written by `set_context`
(`src/mcp_server.py` lines 349-359) and read by `call_tool`.  Each field is
`Option String`: `none` models an absent dictionary key. -/
structure PyCtx where
  room_name : Option String := none
  name : Option String := none
  email : Option String := none
  phone : Option String := none
  job_title : Option String := none
  job_description : Option String := none
  resume_text : Option String := none
  hr_email : Option String := none
  created_at : Option String := none
deriving Repr, DecidableEq

/-- The empty Python dictionary `{}` used as the default in
`room_context.get(room, {})`. -/
def emptyCtx : PyCtx := {}

/-- Python truthiness of a context dictionary: an empty dict is falsy.
A context with at least one key present is truthy. -/
def ctxTruthy (c : PyCtx) : Bool :=
  c.room_name.isSome || c.name.isSome || c.email.isSome || c.phone.isSome ||
  c.job_title.isSome || c.job_description.isSome || c.resume_text.isSome ||
  c.hr_email.isSome || c.created_at.isSome

/-- The in-memory store `room_context : Dict[str, Dict]`
(`src/mcp_server.py` line 39), modelled as an association list where the
most recent write for a key shadows older entries. -/
abbrev Store := List (String × PyCtx)

/-- `room_context.get(room)`: first (most recent) binding for the key. -/
def storeGet : Store → String → Option PyCtx
  | [], _ => none
  | (k, v) :: rest, r => if k = r then some v else storeGet rest r

/-- `room_context[roomName] = ctx`: overwriting insertion. -/
def storeSet (s : Store) (k : String) (v : PyCtx) : Store :=
  (k, v) :: s

/-- Result of one email send, as returned by `_send_gmail`
(`src/mcp_server.py` lines 41-62): a dict with `success: true` and a
result string, or `success: false` and an error string. -/
inductive EmailResult where
  | sent (result : String)
  | failed (error : String)
deriving Repr, DecidableEq

/-- The `success` field of a send result. -/
def EmailResult.success : EmailResult → Bool
  | .sent _ => true
  | .failed _ => false

/-- `_send_gmail` (`src/mcp_server.py` lines 41-62): when Composio or the
Gmail account is not configured the send is mocked as a synthetic success;
otherwise the provider call is attempted and a provider exception is
caught and converted to a failure value, never propagated. -/
def send_gmail (composioReady accountConfigured : Bool)
    (execute : String → String → String → Except String String)
    (toEmail subject body : String) : EmailResult :=
  if composioReady = false ∨ accountConfigured = false then
    .sent ("MOCKED: Email would be sent to " ++ toEmail)
  else
    match execute toEmail subject body with
    | .ok r => .sent r
    | .error e => .failed e

/-- One outgoing email as handed to `_send_gmail`: recipient, subject, body. -/
structure SendCall where
  recipient : String
  subject : String
  body : String
deriving Repr, DecidableEq

/-- `subject_candidate` f-string (`src/mcp_server.py` line 168). -/
def subject_candidate (job_title : String) : String :=
  "Your Interview Transcript — " ++ job_title ++ " Interview"

/-- `body_candidate` f-string (`src/mcp_server.py` lines 169-188).
It mentions the candidate name, job title, transcript, scorecard and
timestamp — and nothing else; in particular no interviewer notes. -/
def body_candidate (candidate_name job_title transcript scorecard timestamp : String) : String :=
  "Dear " ++ candidate_name ++ ",\n\nThank you for taking the time to interview with us for the "
  ++ job_title
  ++ " position.\n\nPlease find your interview transcript below for your records:\n\n=== INTERVIEW TRANSCRIPT ===\n"
  ++ transcript
  ++ "\n\n=== EVALUATION SUMMARY ===\n"
  ++ pyIfElse scorecard "Evaluation pending"
  ++ "\n\nWe appreciate your interest in joining our team. Our HR team will be in touch regarding next steps.\n\nBest regards,\nThe Hiring Team\n\n---\nThis interview was conducted by our AI interviewer \"Orion\" on "
  ++ timestamp ++ "\n"

/-- `subject_hr` f-string (`src/mcp_server.py` line 191). -/
def subject_hr (candidate_name job_title : String) : String :=
  "Interview Complete: " ++ candidate_name ++ " — " ++ job_title

/-- `body_hr` f-string (`src/mcp_server.py` lines 192-215), including the
resume excerpt truncated to its first 2000 characters. -/
def body_hr (candidate_name candidate_email phone job_title timestamp room
    scorecard notes transcript resume : String) : String :=
  "CANDIDATE INTERVIEW SUMMARY\n\nCandidate: " ++ candidate_name
  ++ "\nEmail: " ++ candidate_email
  ++ "\nPhone: " ++ phone
  ++ "\nPosition: " ++ job_title
  ++ "\nInterview Date: " ++ timestamp
  ++ "\nRoom: " ++ room
  ++ "\n\n=== SCORECARD ===\n" ++ pyIfElse scorecard "No scorecard provided"
  ++ "\n\n=== INTERVIEWER NOTES ===\n" ++ pyIfElse notes "No additional notes"
  ++ "\n\n=== FULL TRANSCRIPT ===\n" ++ transcript
  ++ "\n\n=== CANDIDATE RESUME ===\n" ++ resume.take 2000 ++ "..."
  ++ "\n\n---\nAutomatically generated by AI Interviewer System\n"

/-- `context = room_context.get(room, {})` (`src/mcp_server.py` line 155). -/
def ctxOf (store : Store) (room : String) : PyCtx :=
  (storeGet store room).getD emptyCtx

/-- `candidate_email = context.get("email")`, read back as a string where
an absent key behaves like the empty (falsy) string. -/
def candidateEmailOf (store : Store) (room : String) : String :=
  ((ctxOf store room).email).getD ""

/-- `candidate_name = context.get("name", "Candidate")`. -/
def candidateNameOf (store : Store) (room : String) : String :=
  ((ctxOf store room).name).getD "Candidate"

/-- `hr_email = context.get("hr_email") or HR_EMAIL`. -/
def hrEmailOf (hrDefault : String) (store : Store) (room : String) : String :=
  pyOr ((ctxOf store room).hr_email) hrDefault

/-- `job_title = context.get("job_title", "Position")`. -/
def jobTitleOf (store : Store) (room : String) : String :=
  ((ctxOf store room).job_title).getD "Position"

/-- `context.get("phone", "Not provided")`. -/
def phoneOf (store : Store) (room : String) : String :=
  ((ctxOf store room).phone).getD "Not provided"

/-- `context.get("resume_text", "Resume not available")`. -/
def resumeOf (store : Store) (room : String) : String :=
  ((ctxOf store room).resume_text).getD "Resume not available"

/-- The candidate-facing email assembled by the finish branch of `call_tool`
(`src/mcp_server.py` lines 167-188). -/
def candidateSendOf (store : Store) (room transcript scorecard ts : String) : SendCall :=
  { recipient := candidateEmailOf store room
    subject := subject_candidate (jobTitleOf store room)
    body := body_candidate (candidateNameOf store room) (jobTitleOf store room)
              transcript scorecard ts }

/-- The HR-facing email assembled by the finish branch of `call_tool`
(`src/mcp_server.py` lines 190-215). -/
def hrSendOf (hrDefault : String) (store : Store)
    (room transcript scorecard notes ts : String) : SendCall :=
  { recipient := hrEmailOf hrDefault store room
    subject := subject_hr (candidateNameOf store room) (jobTitleOf store room)
    body := body_hr (candidateNameOf store room) (candidateEmailOf store room)
              (phoneOf store room) (jobTitleOf store room) ts room
              scorecard notes transcript (resumeOf store room) }

/-- The `arguments` dictionary of a `call_tool` request
(string values, `none` = key absent). -/
structure ToolArgs where
  room_name : Option String := none
  transcript : Option String := none
  scorecard : Option String := none
  notes : Option String := none
deriving Repr, DecidableEq

/-- The `params` dictionary of a `call_tool` request:
`params.get("name")` and `params.get("arguments")`. -/
structure CallParams where
  name : Option String := none
  arguments : Option ToolArgs := none
deriving Repr, DecidableEq

/-- The value returned by `finish_and_email_transcript`: either the
structured business failure `{success: false, error}` or the success
dictionary `{success: true, room_name, candidate, emails_sent}`. -/
inductive FinishResult where
  | failure (error : String)
  | finished (room : String) (candidate : String) (emailsSent : List (String × EmailResult))
deriving Repr, DecidableEq

/-- The `success` field of a finish result. -/
def FinishResult.success : FinishResult → Bool
  | .failure _ => false
  | .finished _ _ _ => true

/-- A value returned (not raised) by `call_tool`:
Python `None`, a context dictionary, or a finish-result dictionary. -/
inductive ToolResult where
  | null
  | context (c : PyCtx)
  | finish (r : FinishResult)
deriving Repr, DecidableEq

/-- One entry of the `list_tools` catalog
(`src/mcp_server.py` lines 100-127): name, description, and the property
names and required field names of the advertised input schema. -/
structure ToolDescriptor where
  name : String
  description : String
  properties : List String
  required : List String
deriving Repr, DecidableEq

/-- The catalog entry for `fetch_interview_context`
(`src/mcp_server.py` lines 102-112). -/
def fetchToolDescriptor : ToolDescriptor :=
  { name := "fetch_interview_context"
    description := "Fetch current room's interview context including candidate info, job description, and resume text."
    properties := ["room_name"]
    required := ["room_name"] }

/-- The catalog entry for `finish_and_email_transcript`
(`src/mcp_server.py` lines 113-126): it advertises both `room_name` and
`transcript` as required. -/
def finishToolDescriptor : ToolDescriptor :=
  { name := "finish_and_email_transcript"
    description := "Send interview transcript and evaluation to candidate and HR team via Gmail."
    properties := ["room_name", "transcript", "scorecard", "notes"]
    required := ["room_name", "transcript"] }

/-- `list_tools` (`src/mcp_server.py` lines 100-127): the static catalog of
exactly two tools. -/
def list_tools : List ToolDescriptor :=
  [fetchToolDescriptor, finishToolDescriptor]

/-- `call_tool` (`src/mcp_server.py` lines 129-236).  A raised
`ValueError` is modelled as `.error message`; a returned value as
`.ok (value, trace)` where the trace lists the `_send_gmail` invocations
performed, in order.  The actual send behaviour is the parameter `send`;
`hrDefault` is the module constant `HR_EMAIL`; `ts` is the
`datetime.utcnow()` reading taken in the finish branch. -/
def call_tool (hrDefault : String) (send : String → String → String → EmailResult)
    (store : Store) (ts : String) (params : CallParams) :
    Except String (ToolResult × List SendCall) :=
  let arguments := params.arguments.getD {}
  if params.name = some "fetch_interview_context" then
    if pyFalsy arguments.room_name then
      .error "room_name is required"
    else
      let room := arguments.room_name.getD ""
      match storeGet store room with
      | none => .ok (.null, [])
      | some context =>
          if ctxTruthy context then .ok (.context context, []) else .ok (.null, [])
  else if params.name = some "finish_and_email_transcript" then
    let transcript := arguments.transcript.getD ""
    let scorecard := arguments.scorecard.getD ""
    let notes := arguments.notes.getD ""
    if pyFalsy arguments.room_name then
      .error "room_name is required"
    else
      let room := arguments.room_name.getD ""
      if candidateEmailOf store room = "" then
        .ok (.finish (.failure "Candidate email not found"), [])
      else
        let cSend := candidateSendOf store room transcript scorecard ts
        let hSend := hrSendOf hrDefault store room transcript scorecard notes ts
        .ok (.finish (.finished room (candidateNameOf store room)
              [("candidate", send cSend.recipient cSend.subject cSend.body),
               ("hr", send hSend.recipient hSend.subject hSend.body)]),
             [cSend, hSend])
  else
    .error ("Unknown tool: " ++ pyStrOpt params.name)

/-- The result payload of a successful JSON-RPC response from `/mcp`. -/
inductive RpcResult where
  | initResult (protocolVersion serverName serverVersion : String)
  | toolCatalog (catalog : List ToolDescriptor)
  | toolResult (r : ToolResult)
deriving Repr, DecidableEq

/-- A JSON response produced by the `/mcp` handler: HTTP status, echoed
request id, and either a result or an error object with code and message. -/
inductive RpcResponse where
  | success (status : Nat) (id : Option String) (result : RpcResult)
  | rpcError (status : Nat) (id : Option String) (code : Int) (message : String)
deriving Repr, DecidableEq

/-- What the `/mcp` endpoint does with one request: either a JSON response
is produced, or the handler itself raises and the framework sends a plain
HTTP 500 with no JSON-RPC body at all. -/
inductive EndpointOutcome where
  | responded (r : RpcResponse)
  | handlerCrashed (exn : String)
deriving Repr, DecidableEq

/-- The POSTed body of one `/mcp` request.  `unparseable`: the body is not
valid JSON, so `request.json()` raises.  `nonObject`: the body parses but
is not a JSON object, so `payload.get(...)` raises `AttributeError`.
`obj`: a JSON object with optional `method`, `params` and `id` fields. -/
inductive McpRequestBody where
  | unparseable
  | nonObject
  | obj (method : Option String) (params : Option CallParams) (id : Option String)
deriving Repr, DecidableEq

/-- `mcp_endpoint` (`src/mcp_server.py` lines 264-301).  When the body is
unparseable or not an object, the exception is raised before `req_id` is
assigned; the `except` handler then references the unbound local `req_id`,
so the handler itself raises `UnboundLocalError` and no JSON-RPC response
is produced (modelled as `handlerCrashed`).  When the body is an object,
every exception raised by dispatch is converted into a status-500
JSON-RPC error object with code -32603 echoing the request id. -/
def mcp_endpoint (hrDefault : String) (send : String → String → String → EmailResult)
    (store : Store) (ts : String) (body : McpRequestBody) :
    EndpointOutcome × List SendCall :=
  match body with
  | .unparseable =>
      (.handlerCrashed "UnboundLocalError: local variable req_id referenced before assignment", [])
  | .nonObject =>
      (.handlerCrashed "UnboundLocalError: local variable req_id referenced before assignment", [])
  | .obj method params id =>
      if method = some "initialize" then
        (.responded (.success 200 id (.initResult "0.1.0" "ai-interviewer-mcp" "1.0.0")), [])
      else if method = some "list_tools" then
        (.responded (.success 200 id (.toolCatalog list_tools)), [])
      else if method = some "call_tool" then
        match call_tool hrDefault send store ts (params.getD {}) with
        | .ok (r, trace) => (.responded (.success 200 id (.toolResult r)), trace)
        | .error e => (.responded (.rpcError 500 id (-32603) e), [])
      else
        (.responded (.rpcError 500 id (-32603) ("Method not found: " ++ pyStrOpt method)), [])

/-- The multipart form fields of a `/context` request
(`src/mcp_server.py` lines 334-342); the last five default to `""`. -/
structure ContextForm where
  roomName : String
  name : String
  email : String
  phone : String := ""
  jobTitle : String := ""
  jobDescription : String := ""
  resumeText : String := ""
  hrEmail : String := ""
deriving Repr, DecidableEq

/-- The dictionary stored by `set_context`
(`src/mcp_server.py` lines 349-359): every key is written, from the form
fields and the current time. -/
def mkStoredContext (f : ContextForm) (now : String) : PyCtx :=
  { room_name := some f.roomName
    name := some f.name
    email := some f.email
    phone := some f.phone
    job_title := some f.jobTitle
    job_description := some f.jobDescription
    resume_text := some f.resumeText
    hr_email := some f.hrEmail
    created_at := some now }

/-- Outcome of `set_context`: the updated store together with the response
fields, or an HTTP error. -/
inductive SetContextOutcome where
  | ok (store : Store) (roomName candidate message : String)
  | httpError (status : Nat) (detail : String)
deriving Repr, DecidableEq

/-- `set_context` (`src/mcp_server.py` lines 333-371): validates the three
mandatory fields, then overwrites the room entry wholesale.  The dict
assignment in the `try` block cannot raise, so the 500 branch of the
source is unreachable and does not appear here. -/
def set_context (store : Store) (now : String) (f : ContextForm) : SetContextOutcome :=
  if f.roomName = "" ∨ f.name = "" ∨ f.email = "" then
    .httpError 400 "roomName, name, and email are required"
  else
    .ok (storeSet store f.roomName (mkStoredContext f now)) f.roomName f.name
      "Interview context saved successfully"

/-- Apply one `set_context` call to a store, keeping the old store when the
call is rejected with an HTTP error. -/
def applySet (s : Store) (p : ContextForm × String) : Store :=
  match set_context s p.2 p.1 with
  | .ok s2 _ _ _ => s2
  | .httpError _ _ => s

/-- The store obtained from the empty store by a sequence of `set_context`
calls (each paired with its clock reading), applied left to right. -/
def storeOfSets (forms : List (ContextForm × String)) : Store :=
  forms.foldl applySet []

/-- Uploaded file contents, as a byte list. -/
abbrev Bytes := List Nat

/-- The `try` block of `_extract_text_from_upload`
(`src/mcp_server.py` lines 70-84): dispatch on the lowercased filename
suffix.  `pdfExtract` models `pdfminer.extract_text` (may raise),
`docxParagraphs` models reading the paragraph texts of a
`docx.Document` (may raise), and `decodeUtf8Ignore` models
`bytes.decode("utf-8", errors="ignore")`, which is total. -/
def extract_body (pdfExtract : Bytes → Except String String)
    (docxParagraphs : Bytes → Except String (List String))
    (decodeUtf8Ignore : Bytes → String)
    (filename : String) (data : Bytes) : Except String String :=
  let name := pyLower filename
  if pyEndsWith name ".pdf" then
    (pdfExtract data).map (fun t => pyStrip t)
  else if pyEndsWith name ".docx" then
    (docxParagraphs data).map (fun ps =>
      String.intercalate "\n" ((ps.map (fun p => pyStrip p)).filter (fun p => p != "")))
  else if pyEndsWith name ".txt" || pyEndsWith name ".md" then
    .ok (pyStrip (decodeUtf8Ignore data))
  else
    .ok (pyStrip (decodeUtf8Ignore data))

/-- `_extract_text_from_upload` (`src/mcp_server.py` lines 64-87): an empty
filename returns `""`; any exception from the dispatch body is caught and
converted into the placeholder string `"Error reading file: " ++ e`. -/
def extract_text_from_upload (pdfExtract : Bytes → Except String String)
    (docxParagraphs : Bytes → Except String (List String))
    (decodeUtf8Ignore : Bytes → String)
    (filename : String) (data : Bytes) : String :=
  if filename = "" then ""
  else
    match extract_body pdfExtract docxParagraphs decodeUtf8Ignore filename data with
    | .ok t => t
    | .error e => "Error reading file: " ++ e

/-- Outcome of the `/upload` endpoint: the success payload
`{ok, text, filename, size}` or an HTTP error response. -/
inductive UploadOutcome where
  | ok (text : String) (filename : String) (size : Nat)
  | httpError (status : Nat) (detail : String)
deriving Repr, DecidableEq

/-- `upload_resume` (`src/mcp_server.py` lines 305-331).  The filename
check happens before the `try` block, so it really yields a 400.  The
`HTTPException(400, ...)` raises for an empty file and for empty
extracted text happen inside the `try` block whose blanket
`except Exception` catches them (an `HTTPException` is an `Exception`)
and re-raises with status 500; `str(e)` of a caught `HTTPException` is
`"<status>: <detail>"`. -/
def upload_resume (pdfExtract : Bytes → Except String String)
    (docxParagraphs : Bytes → Except String (List String))
    (decodeUtf8Ignore : Bytes → String)
    (filename : Option String) (data : Bytes) : UploadOutcome :=
  if pyFalsy filename then .httpError 400 "No file provided"
  else
    let tryBlock : Except String String :=
      if data.length = 0 then .error "400: Empty file"
      else
        let text := extract_text_from_upload pdfExtract docxParagraphs decodeUtf8Ignore
          (filename.getD "") data
        if pyStrip text = "" then .error "400: Could not extract text from file"
        else .ok text
    match tryBlock with
    | .ok text => .ok (text.take 200000) (filename.getD "") data.length
    | .error e => .httpError 500 ("File processing error: " ++ e)

/-! ## Helper lemmas -/

/-- Dispatch lemma: a tool name equal to neither registered tool raises
the unknown-tool `ValueError`. -/
theorem call_tool_unknown_eq (hrD : String) (send : String → String → String → EmailResult)
    (store : Store) (ts : String) (p : CallParams)
    (h1 : p.name ≠ some "fetch_interview_context")
    (h2 : p.name ≠ some "finish_and_email_transcript") :
    call_tool hrD send store ts p = .error ("Unknown tool: " ++ pyStrOpt p.name) := by
  simp only [call_tool, if_neg h1, if_neg h2]

/-- Dispatch lemma: fetch with an absent or empty `room_name` raises the
validation `ValueError`. -/
theorem call_tool_fetch_missing_room (hrD : String) (send : String → String → String → EmailResult)
    (store : Store) (ts : String) (args : ToolArgs)
    (h : pyFalsy args.room_name = true) :
    call_tool hrD send store ts { name := some "fetch_interview_context", arguments := some args }
      = .error "room_name is required" := by
  simp [call_tool, h]

/-- Dispatch lemma: finish with an absent or empty `room_name` raises the
validation `ValueError`. -/
theorem call_tool_finish_missing_room (hrD : String) (send : String → String → String → EmailResult)
    (store : Store) (ts : String) (args : ToolArgs)
    (h : pyFalsy args.room_name = true) :
    call_tool hrD send store ts { name := some "finish_and_email_transcript", arguments := some args }
      = .error "room_name is required" := by
  simp [call_tool, h]

/-- Dispatch lemma: fetch for a room not in the store returns Python `None`. -/
theorem call_tool_fetch_miss (hrD : String) (send : String → String → String → EmailResult)
    (store : Store) (ts room : String) (args : ToolArgs)
    (hroom : args.room_name = some room) (hr : room ≠ "")
    (hmiss : storeGet store room = none) :
    call_tool hrD send store ts { name := some "fetch_interview_context", arguments := some args }
      = .ok (.null, []) := by
  have hf : pyFalsy (some room) = false := by
    simp [pyFalsy, hr]
  simp [call_tool, hf, hroom, hmiss]

/-- Dispatch lemma: fetch for a room whose stored context is a truthy
dictionary returns that dictionary. -/
theorem call_tool_fetch_hit (hrD : String) (send : String → String → String → EmailResult)
    (store : Store) (ts room : String) (c : PyCtx) (args : ToolArgs)
    (hroom : args.room_name = some room) (hr : room ≠ "")
    (hhit : storeGet store room = some c) (htruthy : ctxTruthy c = true) :
    call_tool hrD send store ts { name := some "fetch_interview_context", arguments := some args }
      = .ok (.context c, []) := by
  have hf : pyFalsy (some room) = false := by
    simp [pyFalsy, hr]
  simp [call_tool, hf, hroom, hhit, htruthy]

/-- Dispatch lemma: finish for a room whose context has no (or an empty)
candidate email returns the structured business failure. -/
theorem call_tool_finish_noemail (hrD : String) (send : String → String → String → EmailResult)
    (store : Store) (ts room : String) (args : ToolArgs)
    (hroom : args.room_name = some room) (hr : room ≠ "")
    (hemail : candidateEmailOf store room = "") :
    call_tool hrD send store ts { name := some "finish_and_email_transcript", arguments := some args }
      = .ok (.finish (.failure "Candidate email not found"), []) := by
  have hf : pyFalsy (some room) = false := by
    simp [pyFalsy, hr]
  simp [call_tool, hf, hroom, hemail]

/-- Dispatch lemma: finish for a room with a candidate email sends both
emails and returns the success dictionary with both per-recipient results. -/
theorem call_tool_finish_ok (hrD : String) (send : String → String → String → EmailResult)
    (store : Store) (ts room : String) (args : ToolArgs)
    (hroom : args.room_name = some room) (hr : room ≠ "")
    (hemail : candidateEmailOf store room ≠ "") :
    call_tool hrD send store ts { name := some "finish_and_email_transcript", arguments := some args }
      = .ok (.finish (.finished room (candidateNameOf store room)
          [("candidate",
            send (candidateSendOf store room (args.transcript.getD "") (args.scorecard.getD "") ts).recipient
                 (candidateSendOf store room (args.transcript.getD "") (args.scorecard.getD "") ts).subject
                 (candidateSendOf store room (args.transcript.getD "") (args.scorecard.getD "") ts).body),
           ("hr",
            send (hrSendOf hrD store room (args.transcript.getD "") (args.scorecard.getD "") (args.notes.getD "") ts).recipient
                 (hrSendOf hrD store room (args.transcript.getD "") (args.scorecard.getD "") (args.notes.getD "") ts).subject
                 (hrSendOf hrD store room (args.transcript.getD "") (args.scorecard.getD "") (args.notes.getD "") ts).body)]),
         [candidateSendOf store room (args.transcript.getD "") (args.scorecard.getD "") ts,
          hrSendOf hrD store room (args.transcript.getD "") (args.scorecard.getD "") (args.notes.getD "") ts]) := by
  have hf : pyFalsy (some room) = false := by
    simp [pyFalsy, hr]
  simp [call_tool, hf, hroom, hemail]

/-- Endpoint lemma: when dispatch raises, the endpoint responds with a
status-500 JSON-RPC error object echoing the request id. -/
theorem mcp_endpoint_call_tool_error (hrD : String) (send : String → String → String → EmailResult)
    (store : Store) (ts : String) (id : Option String) (p : CallParams) (e : String)
    (h : call_tool hrD send store ts p = .error e) :
    mcp_endpoint hrD send store ts (.obj (some "call_tool") (some p) id)
      = (.responded (.rpcError 500 id (-32603) e), []) := by
  simp [mcp_endpoint, h]

/-- Endpoint lemma: when dispatch returns a value, the endpoint responds
with a status-200 JSON-RPC result echoing the request id. -/
theorem mcp_endpoint_call_tool_ok (hrD : String) (send : String → String → String → EmailResult)
    (store : Store) (ts : String) (id : Option String) (p : CallParams)
    (r : ToolResult) (trace : List SendCall)
    (h : call_tool hrD send store ts p = .ok (r, trace)) :
    mcp_endpoint hrD send store ts (.obj (some "call_tool") (some p) id)
      = (.responded (.success 200 id (.toolResult r)), trace) := by
  simp [mcp_endpoint, h]

/-- A `set_context` call for a different room leaves the lookup of `room`
unchanged. -/
theorem storeGet_applySet_ne (s : Store) (p : ContextForm × String) (room : String)
    (h : (p.1).roomName ≠ room) :
    storeGet (applySet s p) room = storeGet s room := by
  by_cases hv : (p.1).roomName = "" ∨ (p.1).name = "" ∨ (p.1).email = ""
  · simp [applySet, set_context, hv]
  · simp [applySet, set_context, hv, storeSet, storeGet, h]

/-- A sequence of `set_context` calls, none of which names `room`, leaves
`room` absent from the store. -/
theorem storeGet_foldl_applySet_none (room : String) :
    ∀ (forms : List (ContextForm × String)) (s : Store),
      (∀ p ∈ forms, (p.1).roomName ≠ room) → storeGet s room = none →
      storeGet (forms.foldl applySet s) room = none
  | [], _, _, hs => hs
  | p :: rest, s, h, hs => by
      have h1 : (p.1).roomName ≠ room := h p (List.mem_cons_self _ _)
      have h2 : ∀ q ∈ rest, (q.1).roomName ≠ room :=
        fun q hq => h q (List.mem_cons_of_mem _ hq)
      simp only [List.foldl_cons]
      exact storeGet_foldl_applySet_none room rest (applySet s p) h2
        ((storeGet_applySet_ne s p room h1).trans hs)

/-- After any `set_context` history that never names `room`, the lookup of
`room` is absent. -/
theorem storeGet_storeOfSets_none (forms : List (ContextForm × String)) (room : String)
    (h : ∀ p ∈ forms, (p.1).roomName ≠ room) :
    storeGet (storeOfSets forms) room = none :=
  storeGet_foldl_applySet_none room forms [] h rfl

/-- First send of a `call_tool` outcome, when dispatch returned a value and
at least one email was dispatched; the finish branch dispatches the
candidate email first. -/
def firstSendOf : Except String (ToolResult × List SendCall) → Option SendCall
  | .ok (_, c :: _) => some c
  | _ => none

/-- Whether a `call_tool` outcome is a returned value rather than a raised
exception. -/
def isOkResult : Except String (ToolResult × List SendCall) → Bool
  | .ok _ => true
  | .error _ => false

/-! ## Concrete fixtures used by witnesses and counterexamples -/

/-- A send behaviour whose HR delivery fails, exercising per-recipient
partial failure. -/
def wSend : String → String → String → EmailResult := fun r _ _ =>
  if r = "hr@corp.example" then .failed "rate limited" else .sent "ok"

/-- A fully populated context form for room `room-42`. -/
def wForm : ContextForm :=
  { roomName := "room-42", name := "Ada Lovelace", email := "ada@example.com",
    jobTitle := "Backend Engineer", hrEmail := "hr@corp.example" }

/-- A second, entirely different payload for the same room. -/
def wForm2 : ContextForm :=
  { roomName := "room-42", name := "Grace Hopper", email := "grace@example.com",
    jobTitle := "Data Engineer", resumeText := "COBOL" }

/-- A store holding one fully populated room. -/
def wStore : Store := [("room-42", mkStoredContext wForm "2024-01-01T00:00:00")]

/-- A store whose one room has a stored context without a candidate email. -/
def wStoreNoEmail : Store := [("room-9", { room_name := some "room-9", name := some "Bob" })]

/-! ## Claims -/

/-- C1 (code bug in the source): the claim demands that every request to
`/mcp`, even one whose body cannot be parsed as JSON, receives a JSON
response echoing the request id.  The except handler of `mcp_endpoint`
indeed echoes `req_id` for every exception raised after the body was
parsed into an object, but when parsing itself fails (or the body is not
an object) the local `req_id` was never assigned, the handler itself
raises `UnboundLocalError`, and no JSON-RPC response is produced at all. -/
theorem mcp_endpoint_crashes_without_id_echo :
    mcp_endpoint "hr@example.com" wSend wStore "TS" .unparseable
      = (.handlerCrashed "UnboundLocalError: local variable req_id referenced before assignment", [])
    ∧ mcp_endpoint "hr@example.com" wSend wStore "TS" .nonObject
      = (.handlerCrashed "UnboundLocalError: local variable req_id referenced before assignment", []) :=
  ⟨rfl, rfl⟩

/-- C2: a `call_tool` request whose tool name is neither registered tool
yields a protocol-level JSON-RPC error object (never a successful
result), and a fetch or finish call whose `room_name` is absent or empty
yields the protocol-level validation error. -/
theorem call_tool_unknown_or_missing_room_is_rpc_error
    (hrD : String) (send : String → String → String → EmailResult) (store : Store)
    (ts : String) (id : Option String) (p : CallParams) (args : ToolArgs)
    (h1 : p.name ≠ some "fetch_interview_context")
    (h2 : p.name ≠ some "finish_and_email_transcript")
    (hmiss : pyFalsy args.room_name = true) :
    mcp_endpoint hrD send store ts (.obj (some "call_tool") (some p) id)
      = (.responded (.rpcError 500 id (-32603) ("Unknown tool: " ++ pyStrOpt p.name)), [])
    ∧ mcp_endpoint hrD send store ts
        (.obj (some "call_tool")
          (some { name := some "fetch_interview_context", arguments := some args }) id)
      = (.responded (.rpcError 500 id (-32603) "room_name is required"), [])
    ∧ mcp_endpoint hrD send store ts
        (.obj (some "call_tool")
          (some { name := some "finish_and_email_transcript", arguments := some args }) id)
      = (.responded (.rpcError 500 id (-32603) "room_name is required"), []) :=
  ⟨mcp_endpoint_call_tool_error _ _ _ _ _ _ _ (call_tool_unknown_eq _ _ _ _ _ h1 h2),
   mcp_endpoint_call_tool_error _ _ _ _ _ _ _ (call_tool_fetch_missing_room _ _ _ _ _ hmiss),
   mcp_endpoint_call_tool_error _ _ _ _ _ _ _ (call_tool_finish_missing_room _ _ _ _ _ hmiss)⟩

/-- Witness for C2: an unregistered tool name, and both tools called with
the `room_name` argument absent. -/
theorem call_tool_unknown_or_missing_room_is_rpc_error_witness :
    mcp_endpoint "hr@example.com" wSend wStore "TS"
        (.obj (some "call_tool") (some { name := some "bogus_tool" }) (some "1"))
      = (.responded (.rpcError 500 (some "1") (-32603)
          ("Unknown tool: " ++ pyStrOpt (some "bogus_tool"))), [])
    ∧ mcp_endpoint "hr@example.com" wSend wStore "TS"
        (.obj (some "call_tool")
          (some { name := some "fetch_interview_context", arguments := some {} }) (some "1"))
      = (.responded (.rpcError 500 (some "1") (-32603) "room_name is required"), [])
    ∧ mcp_endpoint "hr@example.com" wSend wStore "TS"
        (.obj (some "call_tool")
          (some { name := some "finish_and_email_transcript", arguments := some {} }) (some "1"))
      = (.responded (.rpcError 500 (some "1") (-32603) "room_name is required"), []) :=
  call_tool_unknown_or_missing_room_is_rpc_error "hr@example.com" wSend wStore "TS" (some "1")
    { name := some "bogus_tool" } {} (by decide) (by decide) rfl

/-- Counterexample for C3 as stated: the empty room name was never passed
to `set_context` (the store is empty), yet fetching it yields the
protocol-level validation error, not a successful null result. -/
theorem fetch_empty_room_name_is_rpc_error :
    storeGet ([] : Store) "" = none
    ∧ mcp_endpoint "hr@example.com" wSend [] "TS"
        (.obj (some "call_tool")
          (some { name := some "fetch_interview_context",
                  arguments := some { room_name := some "" } }) (some "1"))
      = (.responded (.rpcError 500 (some "1") (-32603) "room_name is required"), []) :=
  ⟨rfl, mcp_endpoint_call_tool_error _ _ _ _ _ _ _
    (call_tool_fetch_missing_room _ _ _ _ _ rfl)⟩

/-- C3 (amended): for every nonempty room name never passed to
`set_context`, fetching returns a successful null RPC result, never an
error.  The empty room name is instead rejected with the validation
error, see the counterexample. -/
theorem fetch_unset_room_returns_null_success
    (hrD : String) (send : String → String → String → EmailResult)
    (ts : String) (id : Option String)
    (forms : List (ContextForm × String)) (room : String)
    (hroom : room ≠ "")
    (hnever : ∀ p ∈ forms, (p.1).roomName ≠ room) :
    mcp_endpoint hrD send (storeOfSets forms) ts
      (.obj (some "call_tool")
        (some { name := some "fetch_interview_context",
                arguments := some { room_name := some room } }) id)
      = (.responded (.success 200 id (.toolResult .null)), []) :=
  mcp_endpoint_call_tool_ok _ _ _ _ _ _ _ _
    (call_tool_fetch_miss _ _ _ _ _ _ rfl hroom (storeGet_storeOfSets_none forms room hnever))

/-- Witness for C3: one room was set, a different room is fetched. -/
theorem fetch_unset_room_returns_null_success_witness :
    mcp_endpoint "hr@example.com" wSend (storeOfSets [(wForm, "2024-01-01T00:00:00")]) "TS"
      (.obj (some "call_tool")
        (some { name := some "fetch_interview_context",
                arguments := some { room_name := some "room-7" } }) (some "1"))
      = (.responded (.success 200 (some "1") (.toolResult .null)), []) :=
  fetch_unset_room_returns_null_success "hr@example.com" wSend "TS" (some "1")
    [(wForm, "2024-01-01T00:00:00")] "room-7" (by decide) (by decide)

/-- C4: finish for a room whose stored context has no candidate email
returns the structured failure dictionary, whose `success` field is
false and which carries a reason, and raises no exception (the outcome is
a returned value, not an error). -/
theorem finish_missing_email_returns_structured_failure
    (hrD : String) (send : String → String → String → EmailResult)
    (store : Store) (ts room : String) (args : ToolArgs)
    (hroom : args.room_name = some room) (hr : room ≠ "")
    (hemail : candidateEmailOf store room = "") :
    call_tool hrD send store ts
        { name := some "finish_and_email_transcript", arguments := some args }
      = .ok (.finish (.failure "Candidate email not found"), [])
    ∧ FinishResult.success (.failure "Candidate email not found") = false :=
  ⟨call_tool_finish_noemail _ _ _ _ _ _ hroom hr hemail, rfl⟩

/-- Witness for C4: a stored context with a name but no email key. -/
theorem finish_missing_email_returns_structured_failure_witness :
    call_tool "hr@example.com" wSend wStoreNoEmail "TS"
        { name := some "finish_and_email_transcript",
          arguments := some { room_name := some "room-9", transcript := some "T" } }
      = .ok (.finish (.failure "Candidate email not found"), [])
    ∧ FinishResult.success (.failure "Candidate email not found") = false :=
  finish_missing_email_returns_structured_failure "hr@example.com" wSend wStoreNoEmail "TS"
    "room-9" { room_name := some "room-9", transcript := some "T" } rfl (by decide) (by decide)

/-- C5: for a room with a candidate email on file, finish dispatches the
candidate email and then the HR email unconditionally — both appear in
the send trace, with no short-circuit — records their outcomes under the
keys `candidate` and `hr` of `emails_sent`, and the result constructor is
the success dictionary for every send behaviour, so overall success is
reported even when either individual send fails. -/
theorem finish_attempts_both_sends
    (hrD : String) (send : String → String → String → EmailResult)
    (store : Store) (ts room : String) (args : ToolArgs)
    (hroom : args.room_name = some room) (hr : room ≠ "")
    (hemail : candidateEmailOf store room ≠ "") :
    call_tool hrD send store ts
        { name := some "finish_and_email_transcript", arguments := some args }
      = .ok (.finish (.finished room (candidateNameOf store room)
          [("candidate",
            send (candidateSendOf store room (args.transcript.getD "") (args.scorecard.getD "") ts).recipient
                 (candidateSendOf store room (args.transcript.getD "") (args.scorecard.getD "") ts).subject
                 (candidateSendOf store room (args.transcript.getD "") (args.scorecard.getD "") ts).body),
           ("hr",
            send (hrSendOf hrD store room (args.transcript.getD "") (args.scorecard.getD "") (args.notes.getD "") ts).recipient
                 (hrSendOf hrD store room (args.transcript.getD "") (args.scorecard.getD "") (args.notes.getD "") ts).subject
                 (hrSendOf hrD store room (args.transcript.getD "") (args.scorecard.getD "") (args.notes.getD "") ts).body)]),
         [candidateSendOf store room (args.transcript.getD "") (args.scorecard.getD "") ts,
          hrSendOf hrD store room (args.transcript.getD "") (args.scorecard.getD "") (args.notes.getD "") ts])
    ∧ ∀ emails : List (String × EmailResult),
        FinishResult.success (.finished room (candidateNameOf store room) emails) = true :=
  ⟨call_tool_finish_ok _ _ _ _ _ _ hroom hr hemail, fun _ => rfl⟩

/-- Witness for C5: a populated room whose HR send fails while the
candidate send succeeds; both sends are attempted and recorded and the
overall result is still the success dictionary. -/
theorem finish_attempts_both_sends_witness :
    call_tool "hr@example.com" wSend wStore "TS"
        { name := some "finish_and_email_transcript",
          arguments := some { room_name := some "room-42", transcript := some "T" } }
      = .ok (.finish (.finished "room-42" (candidateNameOf wStore "room-42")
          [("candidate",
            wSend (candidateSendOf wStore "room-42" "T" "" "TS").recipient
                  (candidateSendOf wStore "room-42" "T" "" "TS").subject
                  (candidateSendOf wStore "room-42" "T" "" "TS").body),
           ("hr",
            wSend (hrSendOf "hr@example.com" wStore "room-42" "T" "" "" "TS").recipient
                  (hrSendOf "hr@example.com" wStore "room-42" "T" "" "" "TS").subject
                  (hrSendOf "hr@example.com" wStore "room-42" "T" "" "" "TS").body)]),
         [candidateSendOf wStore "room-42" "T" "" "TS",
          hrSendOf "hr@example.com" wStore "room-42" "T" "" "" "TS"])
    ∧ FinishResult.success (.finished "room-42" (candidateNameOf wStore "room-42") []) = true :=
  ⟨(finish_attempts_both_sends "hr@example.com" wSend wStore "TS" "room-42"
      { room_name := some "room-42", transcript := some "T" } rfl (by decide) (by decide)).1,
   (finish_attempts_both_sends "hr@example.com" wSend wStore "TS" "room-42"
      { room_name := some "room-42", transcript := some "T" } rfl (by decide) (by decide)).2 []⟩

/-- C6 (code bug in the source): the claim (and the source 400 branches)
intend an empty upload and a zero-text extraction to be client errors,
but both `HTTPException(400, ...)` raises sit inside the `try` block whose
blanket `except Exception` catches them and re-raises with status 500, a
server error. -/
theorem upload_empty_or_textless_file_yields_server_error :
    upload_resume (fun _ => .error "pdf oracle") (fun _ => .error "docx oracle") (fun _ => "")
        (some "resume.txt") []
      = .httpError 500 "File processing error: 400: Empty file"
    ∧ upload_resume (fun _ => .error "pdf oracle") (fun _ => .error "docx oracle") (fun _ => "")
        (some "resume.txt") [0]
      = .httpError 500 "File processing error: 400: Could not extract text from file" :=
  ⟨rfl, rfl⟩

/-- C7: after setting the context of a room twice with different payloads,
fetching that room returns exactly the dictionary built from the second
form and second clock reading — a full overwrite in which no field of
the first write survives. -/
theorem set_twice_fetch_reflects_second_payload
    (hrD : String) (send : String → String → String → EmailResult)
    (store0 : Store) (t1 t2 ts : String) (id : Option String)
    (f1 f2 : ContextForm)
    (hsame : f1.roomName = f2.roomName)
    (h1r : f1.roomName ≠ "") (h1n : f1.name ≠ "") (h1e : f1.email ≠ "")
    (h2r : f2.roomName ≠ "") (h2n : f2.name ≠ "") (h2e : f2.email ≠ "") :
    mcp_endpoint hrD send (applySet (applySet store0 (f1, t1)) (f2, t2)) ts
      (.obj (some "call_tool")
        (some { name := some "fetch_interview_context",
                arguments := some { room_name := some f2.roomName } }) id)
      = (.responded (.success 200 id (.toolResult (.context (mkStoredContext f2 t2)))), []) := by
  have hstore : applySet (applySet store0 (f1, t1)) (f2, t2)
      = storeSet (applySet store0 (f1, t1)) f2.roomName (mkStoredContext f2 t2) := by
    simp [applySet, set_context, h2r, h2n, h2e]
  have hget : storeGet (applySet (applySet store0 (f1, t1)) (f2, t2)) f2.roomName
      = some (mkStoredContext f2 t2) := by
    rw [hstore]; simp [storeSet, storeGet]
  exact mcp_endpoint_call_tool_ok _ _ _ _ _ _ _ _
    (call_tool_fetch_hit _ _ _ _ _ _ _ rfl h2r hget rfl)

/-- Witness for C7: room `room-42` written with two different payloads;
the fetch reflects only the second. -/
theorem set_twice_fetch_reflects_second_payload_witness :
    mcp_endpoint "hr@example.com" wSend (applySet (applySet [] (wForm, "t1")) (wForm2, "t2")) "TS"
      (.obj (some "call_tool")
        (some { name := some "fetch_interview_context",
                arguments := some { room_name := some "room-42" } }) (some "9"))
      = (.responded (.success 200 (some "9")
          (.toolResult (.context (mkStoredContext wForm2 "t2")))), []) :=
  set_twice_fetch_reflects_second_payload "hr@example.com" wSend [] "t1" "t2" "TS" (some "9")
    wForm wForm2 rfl (by decide) (by decide) (by decide) (by decide) (by decide) (by decide)

/-- C8: the extractor is total.  For every filename, byte string and
oracle behaviour (including oracles that raise on bytes they cannot
parse) it returns a string: the empty string for an empty filename, the
extracted text when the dispatch body succeeds, and the placeholder
`Error reading file: ...` when the dispatch body raises.  No exception
propagates to the caller. -/
theorem extract_text_total_never_raises
    (pdfExtract : Bytes → Except String String)
    (docxParagraphs : Bytes → Except String (List String))
    (decodeUtf8Ignore : Bytes → String)
    (filename : String) (data : Bytes) :
    (filename = ""
      ∧ extract_text_from_upload pdfExtract docxParagraphs decodeUtf8Ignore filename data = "")
    ∨ (∃ t, extract_body pdfExtract docxParagraphs decodeUtf8Ignore filename data = .ok t
        ∧ extract_text_from_upload pdfExtract docxParagraphs decodeUtf8Ignore filename data = t)
    ∨ (∃ e, extract_body pdfExtract docxParagraphs decodeUtf8Ignore filename data = .error e
        ∧ extract_text_from_upload pdfExtract docxParagraphs decodeUtf8Ignore filename data
            = "Error reading file: " ++ e) := by
  by_cases hf : filename = ""
  · exact .inl ⟨hf, by simp [extract_text_from_upload, hf]⟩
  · cases hb : extract_body pdfExtract docxParagraphs decodeUtf8Ignore filename data with
    | ok t => exact .inr (.inl ⟨t, rfl, by simp [extract_text_from_upload, hf, hb]⟩)
    | error e => exact .inr (.inr ⟨e, rfl, by simp [extract_text_from_upload, hf, hb]⟩)

set_option maxHeartbeats 1000000 in
/-- C9: two finish calls over the same store and clock reading whose
arguments differ only in the notes value dispatch one identical first
email — the candidate email, whose recipient, subject and body are built
by `candidateSendOf` from the transcript, scorecard and stored context
only, with no notes input.  Notes reach only the HR email. -/
theorem candidate_email_independent_of_notes
    (hrD : String) (send : String → String → String → EmailResult)
    (store : Store) (ts room : String) (args : ToolArgs) (n1 n2 : Option String)
    (hroom : args.room_name = some room) (hr : room ≠ "")
    (hemail : candidateEmailOf store room ≠ "") :
    firstSendOf (call_tool hrD send store ts
        { name := some "finish_and_email_transcript",
          arguments := some { args with notes := n1 } })
      = firstSendOf (call_tool hrD send store ts
        { name := some "finish_and_email_transcript",
          arguments := some { args with notes := n2 } })
    ∧ firstSendOf (call_tool hrD send store ts
        { name := some "finish_and_email_transcript",
          arguments := some { args with notes := n1 } })
      = some (candidateSendOf store room (args.transcript.getD "") (args.scorecard.getD "") ts) := by
  have e1 := call_tool_finish_ok hrD send store ts room { args with notes := n1 } hroom hr hemail
  have e2 := call_tool_finish_ok hrD send store ts room { args with notes := n2 } hroom hr hemail
  constructor
  · rw [e1, e2]; simp only [firstSendOf]
  · rw [e1]; simp only [firstSendOf]

/-- The argument dictionary (without notes) used by the C9 witness. -/
def wArgsNotes : ToolArgs := { room_name := some "room-42", transcript := some "T" }

/-- Witness for C9: the same finish call with a secret note and with no
note dispatches the identical candidate email. -/
theorem candidate_email_independent_of_notes_witness :
    firstSendOf (call_tool "hr@example.com" wSend wStore "TS"
        { name := some "finish_and_email_transcript",
          arguments := some { wArgsNotes with notes := some "internal-only impression" } })
      = firstSendOf (call_tool "hr@example.com" wSend wStore "TS"
        { name := some "finish_and_email_transcript",
          arguments := some { wArgsNotes with notes := none } })
    ∧ firstSendOf (call_tool "hr@example.com" wSend wStore "TS"
        { name := some "finish_and_email_transcript",
          arguments := some { wArgsNotes with notes := some "internal-only impression" } })
      = some (candidateSendOf wStore "room-42" (wArgsNotes.transcript.getD "")
          (wArgsNotes.scorecard.getD "") "TS") :=
  candidate_email_independent_of_notes "hr@example.com" wSend wStore "TS" "room-42"
    wArgsNotes (some "internal-only impression") none rfl (by decide) (by decide)

/-- C10: the catalog advertises `transcript` as required for the finish
tool, yet the dispatcher accepts a call without it: the call behaves
exactly as if the transcript were the empty string, and with a valid
room name it returns a value — never a validation error — so the
advertised schema is stricter than the dispatcher. -/
theorem finish_accepts_missing_transcript
    (hrD : String) (send : String → String → String → EmailResult)
    (store : Store) (ts : String) (args : ToolArgs)
    (ht : args.transcript = none) :
    "transcript" ∈ finishToolDescriptor.required
    ∧ call_tool hrD send store ts
        { name := some "finish_and_email_transcript", arguments := some args }
      = call_tool hrD send store ts
        { name := some "finish_and_email_transcript",
          arguments := some { args with transcript := some "" } }
    ∧ (pyFalsy args.room_name = false →
        isOkResult (call_tool hrD send store ts
          { name := some "finish_and_email_transcript", arguments := some args }) = true) := by
  refine ⟨by simp [finishToolDescriptor], ?_, ?_⟩
  · simp [call_tool, ht]
  · intro hfA
    obtain ⟨room, hroom, hrne⟩ : ∃ r, args.room_name = some r ∧ r ≠ "" := by
      cases h : args.room_name with
      | none => rw [h] at hfA; simp [pyFalsy] at hfA
      | some s =>
          refine ⟨s, rfl, fun hs => ?_⟩
          rw [h, hs] at hfA
          simp [pyFalsy] at hfA
    by_cases he : candidateEmailOf store room = ""
    · rw [call_tool_finish_noemail hrD send store ts room args hroom hrne he]; rfl
    · rw [call_tool_finish_ok hrD send store ts room args hroom hrne he]; rfl

/-- Witness for C10: the finish tool called with only a room name. -/
theorem finish_accepts_missing_transcript_witness :
    "transcript" ∈ finishToolDescriptor.required
    ∧ call_tool "hr@example.com" wSend wStore "TS"
        { name := some "finish_and_email_transcript",
          arguments := some { room_name := some "room-42" } }
      = call_tool "hr@example.com" wSend wStore "TS"
        { name := some "finish_and_email_transcript",
          arguments := some { room_name := some "room-42", transcript := some "" } }
    ∧ isOkResult (call_tool "hr@example.com" wSend wStore "TS"
        { name := some "finish_and_email_transcript",
          arguments := some { room_name := some "room-42" } }) = true := by
  have h := finish_accepts_missing_transcript "hr@example.com" wSend wStore "TS"
    { room_name := some "room-42" } rfl
  exact ⟨h.1, h.2.1, h.2.2 (by decide)⟩
